import Mathlib

/-
  Verification of the pinbounce arcade core (src/main.js) against its
  natural-language specification.  Each game operation referenced by a claim
  is embedded as a Lean definition translated from the JavaScript source;
  the theorems below settle the claims.
-/

set_option maxHeartbeats 1000000

namespace Pinbounce

/-- Colors used by balls and blocks in the game (JS strings
    red / yellow / blue / rainbow / neutral). -/
inductive GameColor
  | red
  | yellow
  | blue
  | rainbow
  | neutral
  deriving DecidableEq, Repr

/-- The three reel colors of the slot machine (SlotMachine.colors). -/
inductive ReelColor
  | red
  | yellow
  | blue
  deriving DecidableEq, Repr

/-- A reel color viewed as a ball color. -/
def reelToBallColor : ReelColor → GameColor
  | ReelColor.red => GameColor.red
  | ReelColor.yellow => GameColor.yellow
  | ReelColor.blue => GameColor.blue

/-- SlotMachine.resolveResult (src/main.js lines 1553-1594): given the three
    resolved reel values, compute the outcome ball color and ball count.
    The JS test `new Set(reels).size === 3` is the number of distinct reel
    values being 3. -/
def resolveResult (r0 r1 r2 : ReelColor) : GameColor × ℕ :=
  let reels := [r0, r1, r2]
  let firstColorCount := (reels.filter (fun r => r = r0)).length
  let isRainbow := reels.dedup.length = 3
  if isRainbow then (GameColor.rainbow, 1)
  else (reelToBallColor r0, firstColorCount)

/-- Claim C4: if the three resolved reel values are pairwise distinct the
    outcome is the rainbow special with ball count 1; otherwise the outcome
    color is reel 0's value and the ball count is the number of reels whose
    value equals reel 0's value, which is between 1 and 3. -/
theorem resolveResult_cases (r0 r1 r2 : ReelColor) :
    resolveResult r0 r1 r2 =
      (if r0 ≠ r1 ∧ r0 ≠ r2 ∧ r1 ≠ r2 then (GameColor.rainbow, 1)
       else (reelToBallColor r0,
             ([r0, r1, r2].filter (fun r => r = r0)).length)) ∧
    (¬(r0 ≠ r1 ∧ r0 ≠ r2 ∧ r1 ≠ r2) →
      1 ≤ ([r0, r1, r2].filter (fun r => r = r0)).length ∧
      ([r0, r1, r2].filter (fun r => r = r0)).length ≤ 3) := by
  cases r0 <;> cases r1 <;> cases r2 <;> exact ⟨by decide, by decide⟩

/-- Witness for C4 at the concrete reel triple (red, red, blue). -/
theorem resolveResult_cases_witness :
    1 ≤ ([ReelColor.red, ReelColor.red, ReelColor.blue].filter
          (fun r => r = ReelColor.red)).length ∧
    ([ReelColor.red, ReelColor.red, ReelColor.blue].filter
          (fun r => r = ReelColor.red)).length ≤ 3 :=
  (resolveResult_cases ReelColor.red ReelColor.red ReelColor.blue).2 (by decide)

/-- Block state relevant to damage (Block class, src/main.js lines 1405-1427). -/
structure BlockSt where
  hp : ℤ
  maxHp : ℤ
  breaking : Bool
  deriving DecidableEq, Repr

/-- Block.takeDamage (src/main.js lines 1420-1427): subtract the damage amount
    from hp, set the breaking flag when the new hp is at or below 0, and
    return whether the block was destroyed (the JS returns this.hp <= 0). -/
def takeDamage (b : BlockSt) (amount : ℤ) : BlockSt × Bool :=
  let hp2 := b.hp - amount
  let breaking2 := if hp2 ≤ 0 then true else b.breaking
  ({ b with hp := hp2, breaking := breaking2 }, decide (hp2 ≤ 0))

/-- Explosion radius of the area-of-effect skill (src/main.js line 3808). -/
def EXPLOSION_AOE_RADIUS : ℚ := 130

/-- The update applied to one block by Game.triggerExplosionAOE
    (src/main.js lines 3818-3838): a live block whose center lies within the
    AOE radius of the explosion center takes 999 damage.  The JS compares
    Math.sqrt(dx*dx+dy*dy) <= 130; for a nonnegative bound this is equivalent
    to the squared-distance comparison used here. -/
def aoeDamageBlock (cx cy blockCx blockCy : ℚ) (b : BlockSt) : BlockSt :=
  if 0 < b.hp ∧ (blockCx - cx)^2 + (blockCy - cy)^2 ≤ EXPLOSION_AOE_RADIUS^2 then
    (takeDamage b 999).1
  else b

/-- Counterexample to claim C6 at a concrete input: the explosion area effect
    hits a live block of 5 hp (at distance 0 from the blast center) with 999
    damage, leaving hp = -994.  So hit-points are not kept at or above 0, and
    the breaking flag is set while hp is not 0. -/
theorem takeDamage_cx :
    (aoeDamageBlock 0 0 0 0 { hp := 5, maxHp := 5, breaking := false }).hp = -994 ∧
    ¬ (0 ≤ (aoeDamageBlock 0 0 0 0 { hp := 5, maxHp := 5, breaking := false }).hp) ∧
    (aoeDamageBlock 0 0 0 0 { hp := 5, maxHp := 5, breaking := false }).breaking = true ∧
    (aoeDamageBlock 0 0 0 0 { hp := 5, maxHp := 5, breaking := false }).hp ≠ 0 := by
  have h : aoeDamageBlock 0 0 0 0 { hp := 5, maxHp := 5, breaking := false } =
      { hp := -994, maxHp := 5, breaking := true } := by
    unfold aoeDamageBlock takeDamage EXPLOSION_AOE_RADIUS
    norm_num
  rw [h]
  refine ⟨rfl, by decide, rfl, by decide⟩

/-- Claim C6 (amended): after a damage application of positive amount to a
    block whose breaking flag is not yet set, hp decreases by exactly the
    amount (it may become negative), the breaking flag is set exactly when the
    new hp is at or below 0, and the returned destroyed flag agrees with
    hp ≤ 0. -/
theorem takeDamage_amended (b : BlockSt) (amount : ℤ)
    (hb : b.breaking = false) (hpos : 0 < amount) :
    (takeDamage b amount).1.hp = b.hp - amount ∧
    (takeDamage b amount).1.hp < b.hp ∧
    ((takeDamage b amount).1.breaking = true ↔ (takeDamage b amount).1.hp ≤ 0) ∧
    (takeDamage b amount).2 = decide ((takeDamage b amount).1.hp ≤ 0) := by
  refine ⟨rfl, by show b.hp - amount < b.hp; omega, ?_, rfl⟩
  show (if b.hp - amount ≤ 0 then true else b.breaking) = true ↔ b.hp - amount ≤ 0
  rw [hb]
  split <;> simp_all

/-- Witness for the amended C6 at a concrete block of 3 hp taking 5 damage. -/
theorem takeDamage_amended_witness :
    (takeDamage { hp := 3, maxHp := 3, breaking := false } 5).1.hp = (3:ℤ) - 5 ∧
    (takeDamage { hp := 3, maxHp := 3, breaking := false } 5).1.hp < (3:ℤ) ∧
    ((takeDamage { hp := 3, maxHp := 3, breaking := false } 5).1.breaking = true ↔
      (takeDamage { hp := 3, maxHp := 3, breaking := false } 5).1.hp ≤ 0) ∧
    (takeDamage { hp := 3, maxHp := 3, breaking := false } 5).2 =
      decide ((takeDamage { hp := 3, maxHp := 3, breaking := false } 5).1.hp ≤ 0) :=
  takeDamage_amended { hp := 3, maxHp := 3, breaking := false } 5 rfl (by decide)

/-- Ball fields relevant to block damage (color and the bulldoze flag). -/
structure DamageBall where
  color : GameColor
  hasBulldoze : Bool
  deriving DecidableEq, Repr

/-- Ball.getDamage (src/main.js lines 1380-1389): 999 for a rainbow or
    bulldoze ball, 5 against a neutral or same-colored block, 1 otherwise. -/
def getDamage (ball : DamageBall) (blockColor : GameColor) : ℤ :=
  if ball.color = GameColor.rainbow then 999
  else if ball.hasBulldoze = true then 999
  else if blockColor = GameColor.neutral ∨ blockColor = ball.color then 5
  else 1

/-- Claim C10: the damage dealt by any ball to any block is at least 1 (999
    for rainbow or bulldoze balls, 5 for a neutral or matching block, 1
    otherwise), so the zero-damage bounce branch of
    Game.processBallBlockCollisions is unreachable and every collision with a
    live block strictly reduces its hit-points. -/
theorem getDamage_pos (ball : DamageBall) (blockColor : GameColor) (b : BlockSt) :
    1 ≤ getDamage ball blockColor ∧
    getDamage ball blockColor =
      (if ball.color = GameColor.rainbow ∨ ball.hasBulldoze = true then 999
       else if blockColor = GameColor.neutral ∨ blockColor = ball.color then 5
       else 1) ∧
    (0 < b.hp → (takeDamage b (getDamage ball blockColor)).1.hp < b.hp) := by
  have h1 : 1 ≤ getDamage ball blockColor := by
    obtain ⟨c, f⟩ := ball
    cases c <;> cases f <;> cases blockColor <;> decide
  refine ⟨h1, ?_, fun hhp => ?_⟩
  · obtain ⟨c, f⟩ := ball
    cases c <;> cases f <;> cases blockColor <;> decide
  · show b.hp - getDamage ball blockColor < b.hp
    omega

/-- Witness for C10: a red non-bulldoze ball hitting a live neutral block of
    3 hp strictly reduces its hit-points. -/
theorem getDamage_pos_witness :
    (takeDamage { hp := 3, maxHp := 3, breaking := false }
        (getDamage { color := GameColor.red, hasBulldoze := false }
          GameColor.neutral)).1.hp < (3:ℤ) :=
  (getDamage_pos { color := GameColor.red, hasBulldoze := false }
      GameColor.neutral { hp := 3, maxHp := 3, breaking := false }).2.2 (by decide)

/-- Phase of the reel (slot) randomizer, gameState.slotState in the source. -/
inductive SlotPhase
  | idle
  | spinning
  | stopping
  | result
  deriving DecidableEq, Repr

/-- Phase of the wheel randomizer, gameState.skillWheelState in the source
    (the source only ever assigns idle, spinning and result). -/
inductive WheelPhase
  | idle
  | spinning
  | result
  deriving DecidableEq, Repr

/-- Phase of the bonus-round (jackpot) machine, gameState.jackpotState in the
    source (src/main.js line 1189: idle, spinning, reward). -/
inductive JackpotPhase
  | idle
  | spinning
  | reward
  deriving DecidableEq, Repr

/-- Whether winning requires clearing neutral blocks as well
    (CONFIG.WIN_REQUIRES_ALL_BLOCKS, src/main.js line 597). -/
def WIN_REQUIRES_ALL_BLOCKS : Bool := false

/-- The game-state fields read and written by Game.update's gating logic and
    Game.checkGameEnd. -/
structure TickState where
  isGameOver : Bool
  hasWon : Bool
  remainingColoredBlocks : ℕ
  remainingBlocks : ℕ
  ballCount : ℕ
  queuedBallCount : ℕ
  pendingBallSpawns : ℕ
  slotState : SlotPhase
  skillWheelState : WheelPhase
  jackpotState : JackpotPhase
  canAffordSpin : Bool
  hitStopActive : Bool
  deriving DecidableEq, Repr

/-- The block count used by the win test (src/main.js lines 4331-4333):
    all blocks when CONFIG.WIN_REQUIRES_ALL_BLOCKS, colored blocks otherwise. -/
def remainingForWin (s : TickState) : ℕ :=
  if WIN_REQUIRES_ALL_BLOCKS then s.remainingBlocks else s.remainingColoredBlocks

/-- Game.checkGameEnd (src/main.js lines 4327-4356): win when the remaining
    block count is 0 and no balls are active, queued or pending; lose when the
    player cannot afford a spin, no balls are active, queued or pending, and
    the slot machine is idle.  Neither test looks at the wheel or jackpot
    phase, and only the lose test looks at the slot phase. -/
def checkGameEnd (s : TickState) : TickState :=
  if s.isGameOver then s
  else if remainingForWin s = 0 ∧ s.ballCount = 0 ∧ s.queuedBallCount = 0 ∧
      s.pendingBallSpawns = 0 then
    { s with isGameOver := true, hasWon := true }
  else if s.canAffordSpin = false ∧ s.ballCount = 0 ∧ s.queuedBallCount = 0 ∧
      s.pendingBallSpawns = 0 ∧ s.slotState = SlotPhase.idle then
    { s with isGameOver := true, hasWon := false }
  else s

/-- The early-return prefix of Game.update (src/main.js lines 4188-4232):
    hit-stop gate, game-over gate, a first checkGameEnd call, then the slot,
    jackpot-spinning and skill-wheel gates.  Returns the state at the early
    return, or none when the tick falls through to physics. -/
def updateGatedPrefix (s : TickState) : Option TickState :=
  if s.hitStopActive then some s
  else if s.isGameOver then some s
  else
    let s1 := checkGameEnd s
    if s1.isGameOver then some s1
    else if s1.slotState ≠ SlotPhase.idle then some s1
    else if s1.jackpotState = JackpotPhase.spinning then some s1
    else if s1.skillWheelState ≠ WheelPhase.idle then some s1
    else none

/-- A reachable tick state in the middle of a reel spin with all blocks
    already cleared and no active, queued or pending balls. -/
def spinningClearedState : TickState :=
  { isGameOver := false, hasWon := false, remainingColoredBlocks := 0,
    remainingBlocks := 0, ballCount := 0, queuedBallCount := 0,
    pendingBallSpawns := 0, slotState := SlotPhase.spinning,
    skillWheelState := WheelPhase.idle, jackpotState := JackpotPhase.idle,
    canAffordSpin := true, hitStopActive := false }

/-- Counterexample to claim C1 at a concrete input: a tick taken while the
    reel randomizer is in its spinning phase (not idle) still sets the
    terminal won flag, because Game.update calls checkGameEnd before the
    slot/jackpot/wheel gates and the win test does not consult any machine
    phase. -/
theorem checkGameEnd_cx :
    spinningClearedState.slotState ≠ SlotPhase.idle ∧
    (updateGatedPrefix spinningClearedState).map TickState.hasWon = some true ∧
    (updateGatedPrefix spinningClearedState).map TickState.isGameOver = some true := by
  decide

/-- Claim C1 (amended): for a tick on a state that is not already terminal
    and not hit-stopped, checkGameEnd sets the won flag exactly when the
    remaining block count for the win rule is 0 and no balls are active,
    queued or pending, with no requirement on the reel, wheel or jackpot
    phases; and whenever that evaluation ends the game, the tick returns
    right after it (before any machine gate or physics). -/
theorem checkGameEnd_amended (s : TickState) (h : s.isGameOver = false)
    (hstop : s.hitStopActive = false) :
    (((checkGameEnd s).isGameOver = true ∧ (checkGameEnd s).hasWon = true) ↔
      (remainingForWin s = 0 ∧ s.ballCount = 0 ∧ s.queuedBallCount = 0 ∧
       s.pendingBallSpawns = 0)) ∧
    ((checkGameEnd s).isGameOver = true →
      updateGatedPrefix s = some (checkGameEnd s)) := by
  unfold updateGatedPrefix
  unfold checkGameEnd
  split_ifs <;> simp_all

/-- Witness for the amended C1 at the concrete mid-spin cleared state. -/
theorem checkGameEnd_amended_witness :
    (((checkGameEnd spinningClearedState).isGameOver = true ∧
      (checkGameEnd spinningClearedState).hasWon = true) ↔
      (remainingForWin spinningClearedState = 0 ∧
       spinningClearedState.ballCount = 0 ∧
       spinningClearedState.queuedBallCount = 0 ∧
       spinningClearedState.pendingBallSpawns = 0)) ∧
    ((checkGameEnd spinningClearedState).isGameOver = true →
      updateGatedPrefix spinningClearedState = some (checkGameEnd spinningClearedState)) :=
  checkGameEnd_amended spinningClearedState rfl rfl

/-- CONFIG.BALL_SPEED (src/main.js line 559). -/
def BALL_SPEED : ℚ := 2

/-- CONFIG.BALL_BOOST_MULTIPLIER (src/main.js line 560). -/
def BALL_BOOST_MULTIPLIER : ℚ := 5/2

/-- CONFIG.BASE_Y (src/main.js line 564). -/
def BASE_Y : ℚ := 0

/-- CONFIG.BASE_RADIUS (src/main.js line 565). -/
def BASE_RADIUS : ℚ := 20

/-- Ball fields used by basket resolution. -/
structure BasketBall where
  x : ℚ
  y : ℚ
  vx : ℚ
  vy : ℚ
  radius : ℚ
  points : ℕ
  boosted : Bool
  deriving DecidableEq, Repr

/-- The fixed base multipliers of the five basket slots before shuffling
    (src/main.js line 3606): skill, x1, x3, x1, skill. -/
def baseMultipliers : List ℕ := [0, 1, 3, 1, 0]

/-- The clamped horizontal slot index for a ball x position
    (src/main.js lines 3617-3618): floor(x / (canvasW/5)) clamped to [0,4]. -/
def basketSlotIndex (canvasW x : ℚ) : ℕ :=
  (max 0 (min 4 ⌊x / (canvasW / 5)⌋)).toNat

/-- The base multiplier of the (shuffled) slot under a ball x position
    (src/main.js lines 3619-3620). -/
def basketBaseMult (basketOrder : List ℕ) (canvasW x : ℚ) : ℕ :=
  baseMultipliers.getD (basketOrder.getD (basketSlotIndex canvasW x) 0) 0

/-- The fever-time multiplier upgrade (src/main.js lines 3648-3651):
    1 becomes 3 and 3 becomes 5; other values are unchanged. -/
def feverUpgrade (m : ℕ) : ℕ := if m = 1 then 3 else if m = 3 then 5 else m

/-- The result of basket resolution for one ball: whether the ball stays in
    the active set, its new state, the score increase, and whether this entry
    requests the skill wheel. -/
structure BasketOutcome where
  keep : Bool
  ball : BasketBall
  scoreDelta : ℕ
  triggerSkillWheel : Bool
  deriving DecidableEq, Repr

/-- The per-ball body of Game.processBaskets (src/main.js lines 3602-3683).
    Fever time is remainingBlocks = 0 (line 3610); the skill-wheel cooldown
    test is now <= skillWheelCooldown (line 3623); u is the Math.random()
    draw for the portal's horizontal velocity spread. -/
def processBasketBall (canvasW canvasH : ℚ) (basketOrder : List ℕ)
    (remainingBlocks : ℕ) (now skillWheelCooldown : ℚ) (baseX u : ℚ)
    (ball : BasketBall) : BasketOutcome :=
  if ball.y + ball.radius ≥ canvasH - 40 then
    if basketBaseMult basketOrder canvasW ball.x = 0 ∧
        (remainingBlocks = 0 ∨ now ≤ skillWheelCooldown) then
      { keep := true,
        ball := { ball with
          x := baseX,
          y := BASE_Y + BASE_RADIUS + ball.radius + 20,
          vx := (u - 1/2) * (BALL_SPEED * BALL_BOOST_MULTIPLIER) * (3/5),
          vy := BALL_SPEED * BALL_BOOST_MULTIPLIER,
          boosted := true },
        scoreDelta := 0,
        triggerSkillWheel := false }
    else
      { keep := false, ball := ball,
        scoreDelta := ball.points *
          (if remainingBlocks = 0
           then feverUpgrade (basketBaseMult basketOrder canvasW ball.x)
           else basketBaseMult basketOrder canvasW ball.x),
        triggerSkillWheel :=
          decide ((if remainingBlocks = 0
                   then feverUpgrade (basketBaseMult basketOrder canvasW ball.x)
                   else basketBaseMult basketOrder canvasW ball.x) = 0 ∧
                  remainingBlocks ≠ 0) }
  else { keep := true, ball := ball, scoreDelta := 0, triggerSkillWheel := false }

/-- Claim C2: a ball with accumulated credit c entering a multiplier slot
    (base multiplier 1 or 3) is consumed; outside a bonus round the score
    increases by exactly c times the multiplier, and during an active bonus
    round (all blocks cleared) by c times the multiplier upgraded one tier
    (1 becomes 3, 3 becomes 5). -/
theorem basket_scoring (canvasW canvasH : ℚ) (basketOrder : List ℕ)
    (remainingBlocks : ℕ) (now cooldown baseX u : ℚ) (ball : BasketBall)
    (m : ℕ) (hstrip : ball.y + ball.radius ≥ canvasH - 40)
    (hm : basketBaseMult basketOrder canvasW ball.x = m)
    (hm13 : m = 1 ∨ m = 3) :
    (processBasketBall canvasW canvasH basketOrder remainingBlocks now cooldown
        baseX u ball).keep = false ∧
    (remainingBlocks ≠ 0 →
      (processBasketBall canvasW canvasH basketOrder remainingBlocks now cooldown
          baseX u ball).scoreDelta = ball.points * m) ∧
    (remainingBlocks = 0 →
      (processBasketBall canvasW canvasH basketOrder remainingBlocks now cooldown
          baseX u ball).scoreDelta = ball.points * feverUpgrade m ∧
      (m = 1 → feverUpgrade m = 3) ∧ (m = 3 → feverUpgrade m = 5)) := by
  have hm0 : ¬ (basketBaseMult basketOrder canvasW ball.x = 0 ∧
      (remainingBlocks = 0 ∨ now ≤ cooldown)) := by
    rw [hm]
    rintro ⟨h0, -⟩
    rcases hm13 with h1 | h3 <;> omega
  unfold processBasketBall
  rw [if_pos hstrip, if_neg hm0, hm]
  refine ⟨rfl, fun hnf => ?_, fun hf => ?_⟩
  · rw [if_neg hnf]
  · exact ⟨by rw [if_pos hf], fun h1 => by rw [h1]; decide, fun h3 => by rw [h3]; decide⟩

/-- Witness for C2: a ball with 7 credit entering the x1 slot of a 400-wide
    canvas with 2 blocks remaining scores exactly 7. -/
theorem basket_scoring_witness :
    (processBasketBall 400 600 [0, 1, 2, 3, 4] 2 10 0 200 (1/2)
        { x := 150, y := 600, vx := 0, vy := 3, radius := 10, points := 7,
          boosted := false }).keep = false ∧
    ((2:ℕ) ≠ 0 →
      (processBasketBall 400 600 [0, 1, 2, 3, 4] 2 10 0 200 (1/2)
          { x := 150, y := 600, vx := 0, vy := 3, radius := 10, points := 7,
            boosted := false }).scoreDelta = 7 * 1) ∧
    ((2:ℕ) = 0 →
      (processBasketBall 400 600 [0, 1, 2, 3, 4] 2 10 0 200 (1/2)
          { x := 150, y := 600, vx := 0, vy := 3, radius := 10, points := 7,
            boosted := false }).scoreDelta = 7 * feverUpgrade 1 ∧
      ((1:ℕ) = 1 → feverUpgrade 1 = 3) ∧ ((1:ℕ) = 3 → feverUpgrade 1 = 5)) :=
  basket_scoring 400 600 [0, 1, 2, 3, 4] 2 10 0 200 (1/2)
    { x := 150, y := 600, vx := 0, vy := 3, radius := 10, points := 7,
      boosted := false }
    1 (by norm_num) (by norm_num [basketBaseMult, basketSlotIndex, baseMultipliers, List.getD]) (Or.inl rfl)

/-- Claim C3: a ball reaching the basket strip over a bonus-trigger (skill)
    slot while a bonus round is active game-wide or the skill-wheel cooldown
    has not elapsed is not consumed: it keeps its credit, is teleported back
    under the launch point with a fresh downward boosted velocity, the score
    is unchanged, and no skill wheel is requested. -/
theorem basket_portal (canvasW canvasH : ℚ) (basketOrder : List ℕ)
    (remainingBlocks : ℕ) (now cooldown baseX u : ℚ) (ball : BasketBall)
    (hstrip : ball.y + ball.radius ≥ canvasH - 40)
    (hm : basketBaseMult basketOrder canvasW ball.x = 0)
    (hgate : remainingBlocks = 0 ∨ now ≤ cooldown) :
    (processBasketBall canvasW canvasH basketOrder remainingBlocks now cooldown
        baseX u ball).keep = true ∧
    (processBasketBall canvasW canvasH basketOrder remainingBlocks now cooldown
        baseX u ball).scoreDelta = 0 ∧
    (processBasketBall canvasW canvasH basketOrder remainingBlocks now cooldown
        baseX u ball).triggerSkillWheel = false ∧
    (processBasketBall canvasW canvasH basketOrder remainingBlocks now cooldown
        baseX u ball).ball.x = baseX ∧
    (processBasketBall canvasW canvasH basketOrder remainingBlocks now cooldown
        baseX u ball).ball.y = BASE_Y + BASE_RADIUS + ball.radius + 20 ∧
    (processBasketBall canvasW canvasH basketOrder remainingBlocks now cooldown
        baseX u ball).ball.vy = BALL_SPEED * BALL_BOOST_MULTIPLIER ∧
    0 < (processBasketBall canvasW canvasH basketOrder remainingBlocks now cooldown
        baseX u ball).ball.vy ∧
    (processBasketBall canvasW canvasH basketOrder remainingBlocks now cooldown
        baseX u ball).ball.boosted = true ∧
    (processBasketBall canvasW canvasH basketOrder remainingBlocks now cooldown
        baseX u ball).ball.points = ball.points := by
  unfold processBasketBall
  rw [if_pos hstrip, if_pos ⟨hm, hgate⟩]
  refine ⟨rfl, rfl, rfl, rfl, rfl, rfl, ?_, rfl, rfl⟩
  show (0:ℚ) < BALL_SPEED * BALL_BOOST_MULTIPLIER
  norm_num [BALL_SPEED, BALL_BOOST_MULTIPLIER]

/-- Witness for C3: a ball over the skill slot while the cooldown is still
    running is teleported back and kept, with the score unchanged. -/
theorem basket_portal_witness :
    (processBasketBall 400 600 [0, 1, 2, 3, 4] 2 5 10 200 (1/2)
        { x := 30, y := 600, vx := 0, vy := 3, radius := 10, points := 7,
          boosted := false }).keep = true ∧
    (processBasketBall 400 600 [0, 1, 2, 3, 4] 2 5 10 200 (1/2)
        { x := 30, y := 600, vx := 0, vy := 3, radius := 10, points := 7,
          boosted := false }).scoreDelta = 0 ∧
    (processBasketBall 400 600 [0, 1, 2, 3, 4] 2 5 10 200 (1/2)
        { x := 30, y := 600, vx := 0, vy := 3, radius := 10, points := 7,
          boosted := false }).triggerSkillWheel = false ∧
    (processBasketBall 400 600 [0, 1, 2, 3, 4] 2 5 10 200 (1/2)
        { x := 30, y := 600, vx := 0, vy := 3, radius := 10, points := 7,
          boosted := false }).ball.x = 200 ∧
    (processBasketBall 400 600 [0, 1, 2, 3, 4] 2 5 10 200 (1/2)
        { x := 30, y := 600, vx := 0, vy := 3, radius := 10, points := 7,
          boosted := false }).ball.y = BASE_Y + BASE_RADIUS + 10 + 20 ∧
    (processBasketBall 400 600 [0, 1, 2, 3, 4] 2 5 10 200 (1/2)
        { x := 30, y := 600, vx := 0, vy := 3, radius := 10, points := 7,
          boosted := false }).ball.vy = BALL_SPEED * BALL_BOOST_MULTIPLIER ∧
    0 < (processBasketBall 400 600 [0, 1, 2, 3, 4] 2 5 10 200 (1/2)
        { x := 30, y := 600, vx := 0, vy := 3, radius := 10, points := 7,
          boosted := false }).ball.vy ∧
    (processBasketBall 400 600 [0, 1, 2, 3, 4] 2 5 10 200 (1/2)
        { x := 30, y := 600, vx := 0, vy := 3, radius := 10, points := 7,
          boosted := false }).ball.boosted = true ∧
    (processBasketBall 400 600 [0, 1, 2, 3, 4] 2 5 10 200 (1/2)
        { x := 30, y := 600, vx := 0, vy := 3, radius := 10, points := 7,
          boosted := false }).ball.points = 7 :=
  basket_portal 400 600 [0, 1, 2, 3, 4] 2 5 10 200 (1/2)
    { x := 30, y := 600, vx := 0, vy := 3, radius := 10, points := 7,
      boosted := false }
    (by norm_num) (by norm_num [basketBaseMult, basketSlotIndex, baseMultipliers, List.getD]) (Or.inr (by norm_num))

/-- CONFIG.BALL_RADIUS_NORMAL, _MEDIUM and _BIG (src/main.js lines 548-550). -/
def BALL_RADIUS_NORMAL : ℚ := 10

/-- CONFIG.BALL_RADIUS_MEDIUM (src/main.js line 549). -/
def BALL_RADIUS_MEDIUM : ℚ := 13

/-- CONFIG.BALL_RADIUS_BIG (src/main.js line 550). -/
def BALL_RADIUS_BIG : ℚ := 16

/-- The ball type strings used by the source: big, medium, rainball and
    normal (Ball.getRadiusByType treats everything but big and medium as the
    default). -/
inductive BallType
  | big
  | medium
  | rainball
  | normal
  deriving DecidableEq, Repr

/-- Ball.getRadiusByType (src/main.js lines 1300-1306). -/
def getRadiusByType : BallType → ℚ
  | BallType.big => BALL_RADIUS_BIG
  | BallType.medium => BALL_RADIUS_MEDIUM
  | _ => BALL_RADIUS_NORMAL

/-- The ball fields governed by the radius/ability invariant. -/
structure AbilityBall where
  type : BallType
  baseRadius : ℚ
  hasBulldoze : Bool
  hasExplosion : Bool
  deriving DecidableEq, Repr

/-- Ball construction (Ball constructor, src/main.js lines 1260-1294):
    baseRadius is the type radius and both ability flags start false. -/
def mkAbilityBall (t : BallType) : AbilityBall :=
  { type := t, baseRadius := getRadiusByType t, hasBulldoze := false,
    hasExplosion := false }

/-- The bulldoze branch of Game.applySkillToAllBalls (src/main.js lines
    4122-4124), also used for a pending bulldoze skill at spawn (lines
    3569-3571): set the flag and double the current base radius. -/
def applySkillBulldoze (b : AbilityBall) : AbilityBall :=
  { b with hasBulldoze := true, baseRadius := b.baseRadius * 2 }

/-- Bulldoze revocation on wall contact (src/main.js lines 1366-1369 and
    3720-3723): clear the flag and reset the base radius from the type. -/
def loseBulldozeOnWall (b : AbilityBall) : AbilityBall :=
  { b with hasBulldoze := false, baseRadius := getRadiusByType b.type }

/-- The radius consistency property claimed by the spec: the bulldoze flag on
    means exactly double the type radius, off means the type radius.  The
    ball's effective radius is the getter Ball.radius = baseRadius
    (src/main.js lines 1296-1298). -/
def radiusInvariant (b : AbilityBall) : Prop :=
  b.baseRadius = if b.hasBulldoze then 2 * getRadiusByType b.type
                 else getRadiusByType b.type

/-- Counterexample to claim C5 at a concrete input: applying the wheel's
    bulldoze ability to a normal-type ball already carrying bulldoze (still
    satisfying the invariant) doubles its radius again to 40, four times the
    base radius of 10, so the flag-on state no longer has exactly double the
    base radius. -/
theorem radiusInvariant_cx :
    radiusInvariant (applySkillBulldoze (mkAbilityBall BallType.normal)) ∧
    (applySkillBulldoze (mkAbilityBall BallType.normal)).hasBulldoze = true ∧
    ¬ radiusInvariant
        (applySkillBulldoze (applySkillBulldoze (mkAbilityBall BallType.normal))) ∧
    (applySkillBulldoze
        (applySkillBulldoze (mkAbilityBall BallType.normal))).baseRadius = 40 := by
  refine ⟨?_, rfl, ?_, ?_⟩
  · show (10:ℚ) * 2 = if true = true then 2 * getRadiusByType BallType.normal
        else getRadiusByType BallType.normal
    norm_num [getRadiusByType, BALL_RADIUS_NORMAL]
  · show ¬ ((10:ℚ) * 2 * 2 = if true = true then 2 * getRadiusByType BallType.normal
        else getRadiusByType BallType.normal)
    norm_num [getRadiusByType, BALL_RADIUS_NORMAL]
  · show (10:ℚ) * 2 * 2 = 40
    norm_num

/-- Claim C5 (amended): the radius/ability invariant holds for freshly
    constructed balls, is preserved by wall-contact revocation, and is
    preserved by applying the wheel's bulldoze ability to a ball that does
    not already carry it; applying bulldoze to a ball that already carries
    it instead doubles the radius beyond 2 times the type radius. -/
theorem radiusInvariant_amended (b : AbilityBall) (h : radiusInvariant b) :
    (∀ t, radiusInvariant (mkAbilityBall t)) ∧
    radiusInvariant (loseBulldozeOnWall b) ∧
    (b.hasBulldoze = false → radiusInvariant (applySkillBulldoze b)) ∧
    (b.hasBulldoze = true →
      (applySkillBulldoze b).baseRadius = 4 * getRadiusByType b.type) := by
  refine ⟨fun t => ?_, ?_, fun hf => ?_, fun ht => ?_⟩
  · show getRadiusByType t = if false = true then _ else getRadiusByType t
    simp
  · show getRadiusByType b.type = if false = true then _ else getRadiusByType b.type
    simp
  · show b.baseRadius * 2 = if true = true then 2 * getRadiusByType b.type
        else getRadiusByType b.type
    unfold radiusInvariant at h
    rw [hf] at h
    simp at h ⊢
    rw [h]
    ring
  · show b.baseRadius * 2 = 4 * getRadiusByType b.type
    unfold radiusInvariant at h
    rw [ht] at h
    simp at h
    rw [h]
    ring

/-- Witness for the amended C5 at a concrete medium ball without bulldoze. -/
theorem radiusInvariant_amended_witness :
    (∀ t, radiusInvariant (mkAbilityBall t)) ∧
    radiusInvariant (loseBulldozeOnWall (mkAbilityBall BallType.medium)) ∧
    ((mkAbilityBall BallType.medium).hasBulldoze = false →
      radiusInvariant (applySkillBulldoze (mkAbilityBall BallType.medium))) ∧
    ((mkAbilityBall BallType.medium).hasBulldoze = true →
      (applySkillBulldoze (mkAbilityBall BallType.medium)).baseRadius =
        4 * getRadiusByType (mkAbilityBall BallType.medium).type) :=
  radiusInvariant_amended (mkAbilityBall BallType.medium)
    (by show (13:ℚ) = if false = true then _ else getRadiusByType BallType.medium
        simp [getRadiusByType, BALL_RADIUS_MEDIUM])

/-- CONFIG.GRAVITY (src/main.js line 561). -/
def GRAVITY : ℚ := 1/20

/-- The full set of ball fields used by the physics update and the
    collision-processing loops. -/
structure PhysBall where
  x : ℚ
  y : ℚ
  vx : ℚ
  vy : ℚ
  color : GameColor
  type : BallType
  baseRadius : ℚ
  normalSpeed : ℚ
  boosted : Bool
  hasBulldoze : Bool
  hasExplosion : Bool
  points : ℤ
  hitWallThisFrame : Bool
  deriving DecidableEq, Repr

/-- reflectVelocity (src/main.js lines 1929-1933): reflect a velocity about
    a collision normal. -/
def reflectVelocity (vx vy nx ny : ℚ) : ℚ × ℚ :=
  let dot := vx * nx + vy * ny
  (vx - 2 * dot * nx, vy - 2 * dot * ny)

/-- The gravity, integration and outer-edge bounce portion of Ball.update
    (src/main.js lines 1315-1345): apply gravity, integrate, then resolve the
    left, right and top edges in order, flipping the velocity component and
    clamping the position; the second component is the hitOuterWall flag. -/
def ballMoveAndBounce (canvasW : ℚ) (b : PhysBall) : PhysBall × Bool :=
  let vyg := b.vy + GRAVITY
  let x0 := b.x + b.vx
  let y0 := b.y + vyg
  let r := b.baseRadius
  let hitL : Bool := decide (x0 - r < 0)
  let x1 := if x0 - r < 0 then r else x0
  let vx1 := if x0 - r < 0 then |b.vx| else b.vx
  let hitR : Bool := decide (x1 + r > canvasW)
  let x2 := if x1 + r > canvasW then canvasW - r else x1
  let vx2 := if x1 + r > canvasW then -|vx1| else vx1
  let hitT : Bool := decide (y0 - r < 0)
  let y1 := if y0 - r < 0 then r else y0
  let vy1 := if y0 - r < 0 then |vyg| else vyg
  let hit := hitL || hitR || hitT
  ({ b with x := x2, y := y1, vx := vx2, vy := vy1, hitWallThisFrame := hit }, hit)

/-- The random nudge on an outer-wall hit (src/main.js lines 1347-1351);
    u1 and u2 are the two Math.random() draws. -/
def ballNudge (u1 u2 : ℚ) (hit : Bool) (b : PhysBall) : PhysBall :=
  if hit = true then
    { b with vx := b.vx + (u1 - 1/2) * (1/10), vy := b.vy + (u2 - 1/2) * (1/10) }
  else b

/-- Spawn-boost loss on an outer-wall hit after the 200 ms grace period
    (src/main.js lines 1353-1363); rsqrt stands for Math.sqrt. -/
def ballLoseBoost (rsqrt : ℚ → ℚ) (timeSinceSpawn : ℚ) (hit : Bool)
    (b : PhysBall) : PhysBall :=
  if hit = true ∧ b.boosted = true ∧ timeSinceSpawn > 200 then
    if rsqrt (b.vx * b.vx + b.vy * b.vy) > b.normalSpeed then
      { b with
        boosted := false,
        vx := b.vx * (b.normalSpeed / rsqrt (b.vx * b.vx + b.vy * b.vy)),
        vy := b.vy * (b.normalSpeed / rsqrt (b.vx * b.vx + b.vy * b.vy)) }
    else { b with boosted := false }
  else b

/-- Bulldoze loss on an outer-wall hit after the 200 ms grace period
    (src/main.js lines 1365-1369). -/
def ballLoseBulldoze (timeSinceSpawn : ℚ) (hit : Bool) (b : PhysBall) : PhysBall :=
  if hit = true ∧ b.hasBulldoze = true ∧ timeSinceSpawn > 200 then
    { b with hasBulldoze := false, baseRadius := getRadiusByType b.type }
  else b

/-- Ball.update (src/main.js lines 1308-1378), without the cosmetic trail:
    move and bounce, nudge, boost loss, bulldoze loss, and finally report
    whether the ball is still on screen. -/
def ballUpdate (rsqrt : ℚ → ℚ) (canvasW canvasH timeSinceSpawn u1 u2 : ℚ)
    (b : PhysBall) : PhysBall × Bool :=
  let m := ballMoveAndBounce canvasW b
  let b1 := ballNudge u1 u2 m.2 m.1
  let b2 := ballLoseBoost rsqrt timeSinceSpawn m.2 b1
  let b3 := ballLoseBulldoze timeSinceSpawn m.2 b2
  (b3, decide (¬ b3.y - b3.baseRadius > canvasH))

/-- The body of Game.processBallWallCollisions for one colliding wall
    (src/main.js lines 3699-3724), with the collision result supplied:
    reflect, push out, record the wall hit, lose the spawn boost, and revoke
    bulldoze with the radius reset (no grace period on obstacle walls). -/
def wallCollisionStep (rsqrt : ℚ → ℚ) (hit : Bool) (nx ny pen : ℚ)
    (b : PhysBall) : PhysBall :=
  if hit = true then
    let v := reflectVelocity b.vx b.vy nx ny
    let b1 := { b with
      vx := v.1, vy := v.2, x := b.x + nx * pen,
      y := b.y + ny * pen, hitWallThisFrame := true }
    let b2 :=
      if b1.boosted = true then
        if rsqrt (b1.vx * b1.vx + b1.vy * b1.vy) > b1.normalSpeed then
          { b1 with
            boosted := false,
            vx := b1.vx * (b1.normalSpeed / rsqrt (b1.vx * b1.vx + b1.vy * b1.vy)),
            vy := b1.vy * (b1.normalSpeed / rsqrt (b1.vx * b1.vx + b1.vy * b1.vy)) }
        else { b1 with boosted := false }
      else b1
    if b2.hasBulldoze = true then
      { b2 with hasBulldoze := false, baseRadius := getRadiusByType b2.type }
    else b2
  else b

/-- The body of Game.processBallBlockCollisions for one ball/block pair
    (src/main.js lines 3739-3800), with the collision result supplied, and
    restricted to the ball state and the block damage state.  An explosion
    ball detonates the area effect, which reaches at least the contacted
    block (distance 0), crediting the ball with the block's full hp; the
    source then skips the pair when the block died in the blast.  The
    bulldoze flag and the radius are never written on block contact. -/
def ballBlockStep (hit : Bool) (nx ny pen : ℚ) (blkColor : GameColor)
    (b : PhysBall) (blk : BlockSt) : PhysBall × BlockSt :=
  if hit = true ∧ 0 < blk.hp then
    let damage := getDamage { color := b.color, hasBulldoze := b.hasBulldoze } blkColor
    if 0 < damage then
      if b.hasExplosion = true then
        let b2 := { b with hasExplosion := false, points := b.points + blk.hp }
        (b2, (takeDamage blk 999).1)
      else
        let actual := max 0 (min damage blk.hp)
        let b2 := { b with points := b.points + actual }
        let dmg := takeDamage blk damage
        if dmg.2 = true then
          if b2.hasBulldoze = true then (b2, dmg.1)
          else ({ b2 with x := b2.x + nx * pen, y := b2.y + ny * pen }, dmg.1)
        else
          ({ b2 with
             vx := (reflectVelocity b2.vx b2.vy nx ny).1,
             vy := (reflectVelocity b2.vx b2.vy nx ny).2,
             x := b2.x + nx * pen, y := b2.y + ny * pen }, dmg.1)
    else
      ({ b with
         vx := (reflectVelocity b.vx b.vy nx ny).1,
         vy := (reflectVelocity b.vx b.vy nx ny).2,
         x := b.x + nx * pen, y := b.y + ny * pen }, blk)
  else (b, blk)

lemma ballNudge_preserves (u1 u2 : ℚ) (hit : Bool) (b : PhysBall) :
    (ballNudge u1 u2 hit b).hasBulldoze = b.hasBulldoze ∧
    (ballNudge u1 u2 hit b).baseRadius = b.baseRadius ∧
    (ballNudge u1 u2 hit b).type = b.type ∧
    (ballNudge u1 u2 hit b).boosted = b.boosted ∧
    (ballNudge u1 u2 hit b).hitWallThisFrame = b.hitWallThisFrame := by
  unfold ballNudge
  split <;> exact ⟨rfl, rfl, rfl, rfl, rfl⟩

lemma ballLoseBoost_preserves (rsqrt : ℚ → ℚ) (t : ℚ) (hit : Bool) (b : PhysBall) :
    (ballLoseBoost rsqrt t hit b).hasBulldoze = b.hasBulldoze ∧
    (ballLoseBoost rsqrt t hit b).baseRadius = b.baseRadius ∧
    (ballLoseBoost rsqrt t hit b).type = b.type ∧
    (ballLoseBoost rsqrt t hit b).hitWallThisFrame = b.hitWallThisFrame := by
  unfold ballLoseBoost
  split <;> [skip; exact ⟨rfl, rfl, rfl, rfl⟩]
  split <;> exact ⟨rfl, rfl, rfl, rfl⟩

lemma ballMoveAndBounce_preserves (canvasW : ℚ) (b : PhysBall) :
    (ballMoveAndBounce canvasW b).1.hasBulldoze = b.hasBulldoze ∧
    (ballMoveAndBounce canvasW b).1.baseRadius = b.baseRadius ∧
    (ballMoveAndBounce canvasW b).1.type = b.type ∧
    (ballMoveAndBounce canvasW b).1.boosted = b.boosted ∧
    (ballMoveAndBounce canvasW b).1.hitWallThisFrame = (ballMoveAndBounce canvasW b).2 :=
  ⟨rfl, rfl, rfl, rfl, rfl⟩

lemma ballLoseBulldoze_spec (t : ℚ) (hit : Bool) (b : PhysBall) :
    (hit = true ∧ b.hasBulldoze = true ∧ t > 200 →
      (ballLoseBulldoze t hit b).hasBulldoze = false ∧
      (ballLoseBulldoze t hit b).baseRadius = getRadiusByType b.type) ∧
    (¬ (hit = true ∧ b.hasBulldoze = true ∧ t > 200) →
      ballLoseBulldoze t hit b = b) := by
  unfold ballLoseBulldoze
  split <;> simp_all

lemma ballLoseBulldoze_preserves (t : ℚ) (hit : Bool) (b : PhysBall) :
    (ballLoseBulldoze t hit b).hitWallThisFrame = b.hitWallThisFrame ∧
    (ballLoseBulldoze t hit b).type = b.type := by
  unfold ballLoseBulldoze
  split <;> exact ⟨rfl, rfl⟩

/-- A bulldoze ball 100 ms after spawn, about to hit the left arena edge. -/
def graceBall : PhysBall :=
  { x := 5, y := 300, vx := -10, vy := 0, color := GameColor.red,
    type := BallType.normal, baseRadius := 20, normalSpeed := 2,
    boosted := false, hasBulldoze := true, hasExplosion := false,
    points := 0, hitWallThisFrame := false }

/-- A non-boosted bulldoze ball moving straight up at speed 7 that collides
    with an obstacle wall whose collision normal points down. -/
def speedBall : PhysBall :=
  { x := 100, y := 100, vx := 0, vy := -7, color := GameColor.red,
    type := BallType.normal, baseRadius := 20, normalSpeed := 2,
    boosted := false, hasBulldoze := true, hasExplosion := false,
    points := 0, hitWallThisFrame := false }

/-- Counterexample to claim C8 at concrete inputs.  First: a bulldoze ball
    hits the left arena edge 100 ms after spawn (inside the 200 ms grace
    period of src/main.js line 1366); the frame records the wall hit but the
    flag is not revoked and the radius stays doubled.  Second: an obstacle
    wall hit does revoke bulldoze, but the ball's speed is not renormalized
    to its base speed (it stays 7 while the base speed is 2): only the
    spawn-boost flag ever triggers speed renormalization. -/
theorem bulldoze_wall_cx :
    ((ballUpdate (fun _ => 0) 400 600 100 (1/2) (1/2) graceBall).1.hitWallThisFrame = true ∧
     (ballUpdate (fun _ => 0) 400 600 100 (1/2) (1/2) graceBall).1.hasBulldoze = true ∧
     (ballUpdate (fun _ => 0) 400 600 100 (1/2) (1/2) graceBall).1.baseRadius = 20) ∧
    ((wallCollisionStep (fun _ => 0) true 0 1 0 speedBall).hasBulldoze = false ∧
     (wallCollisionStep (fun _ => 0) true 0 1 0 speedBall).baseRadius = 10 ∧
     (wallCollisionStep (fun _ => 0) true 0 1 0 speedBall).vx = 0 ∧
     (wallCollisionStep (fun _ => 0) true 0 1 0 speedBall).vy = 7 ∧
     speedBall.normalSpeed = 2) := by
  have h1 : ballUpdate (fun _ => 0) 400 600 100 (1/2) (1/2) graceBall =
      ({ x := 20, y := 300 + 1/20, vx := 10, vy := 1/20, color := GameColor.red,
         type := BallType.normal, baseRadius := 20, normalSpeed := 2,
         boosted := false, hasBulldoze := true, hasExplosion := false,
         points := 0, hitWallThisFrame := true }, true) := by
    unfold ballUpdate ballMoveAndBounce ballNudge ballLoseBoost ballLoseBulldoze
      graceBall GRAVITY
    norm_num
  have h2 : wallCollisionStep (fun _ => 0) true 0 1 0 speedBall =
      { x := 100, y := 100, vx := 0, vy := 7, color := GameColor.red,
        type := BallType.normal, baseRadius := 10, normalSpeed := 2,
        boosted := false, hasBulldoze := false, hasExplosion := false,
        points := 0, hitWallThisFrame := true } := by
    unfold wallCollisionStep reflectVelocity speedBall getRadiusByType
      BALL_RADIUS_NORMAL
    norm_num
  rw [h1, h2]
  exact ⟨⟨rfl, rfl, rfl⟩, rfl, rfl, rfl, rfl, rfl⟩

/-- Claim C8 (amended): for a ball carrying the bulldoze flag, an outer-edge
    contact revokes the flag and restores the type radius only when more than
    200 ms have passed since spawn — inside the grace period nothing is
    revoked; an obstacle-wall contact revokes it and resets the radius
    unconditionally; block contact never touches the flag or the radius.
    Speed renormalization is tied to the separate spawn-boost flag, not to
    bulldoze revocation. -/
theorem bulldoze_revocation_amended (rsqrt : ℚ → ℚ)
    (canvasW canvasH timeSinceSpawn u1 u2 : ℚ) (b : PhysBall)
    (hb : b.hasBulldoze = true) :
    ((ballUpdate rsqrt canvasW canvasH timeSinceSpawn u1 u2 b).1.hitWallThisFrame = true →
      timeSinceSpawn > 200 →
      (ballUpdate rsqrt canvasW canvasH timeSinceSpawn u1 u2 b).1.hasBulldoze = false ∧
      (ballUpdate rsqrt canvasW canvasH timeSinceSpawn u1 u2 b).1.baseRadius =
        getRadiusByType b.type) ∧
    (¬ timeSinceSpawn > 200 →
      (ballUpdate rsqrt canvasW canvasH timeSinceSpawn u1 u2 b).1.hasBulldoze = true ∧
      (ballUpdate rsqrt canvasW canvasH timeSinceSpawn u1 u2 b).1.baseRadius = b.baseRadius) ∧
    (∀ nx ny pen,
      (wallCollisionStep rsqrt true nx ny pen b).hasBulldoze = false ∧
      (wallCollisionStep rsqrt true nx ny pen b).baseRadius = getRadiusByType b.type) ∧
    (∀ hit nx ny pen blkColor blk,
      (ballBlockStep hit nx ny pen blkColor b blk).1.hasBulldoze = b.hasBulldoze ∧
      (ballBlockStep hit nx ny pen blkColor b blk).1.baseRadius = b.baseRadius) := by
  have hmb := ballMoveAndBounce_preserves canvasW b
  have hnp := ballNudge_preserves u1 u2 (ballMoveAndBounce canvasW b).2
    (ballMoveAndBounce canvasW b).1
  have hbp := ballLoseBoost_preserves rsqrt timeSinceSpawn (ballMoveAndBounce canvasW b).2
    (ballNudge u1 u2 (ballMoveAndBounce canvasW b).2 (ballMoveAndBounce canvasW b).1)
  have hres : (ballUpdate rsqrt canvasW canvasH timeSinceSpawn u1 u2 b).1 =
      ballLoseBulldoze timeSinceSpawn (ballMoveAndBounce canvasW b).2
        (ballLoseBoost rsqrt timeSinceSpawn (ballMoveAndBounce canvasW b).2
          (ballNudge u1 u2 (ballMoveAndBounce canvasW b).2
            (ballMoveAndBounce canvasW b).1)) := rfl
  have hB2bd : (ballLoseBoost rsqrt timeSinceSpawn (ballMoveAndBounce canvasW b).2
      (ballNudge u1 u2 (ballMoveAndBounce canvasW b).2
        (ballMoveAndBounce canvasW b).1)).hasBulldoze = true := by
    rw [hbp.1, hnp.1, hmb.1, hb]
  have hB2r : (ballLoseBoost rsqrt timeSinceSpawn (ballMoveAndBounce canvasW b).2
      (ballNudge u1 u2 (ballMoveAndBounce canvasW b).2
        (ballMoveAndBounce canvasW b).1)).baseRadius = b.baseRadius := by
    rw [hbp.2.1, hnp.2.1, hmb.2.1]
  have hB2t : (ballLoseBoost rsqrt timeSinceSpawn (ballMoveAndBounce canvasW b).2
      (ballNudge u1 u2 (ballMoveAndBounce canvasW b).2
        (ballMoveAndBounce canvasW b).1)).type = b.type := by
    rw [hbp.2.2.1, hnp.2.2.1, hmb.2.2.1]
  have hB2w : (ballLoseBoost rsqrt timeSinceSpawn (ballMoveAndBounce canvasW b).2
      (ballNudge u1 u2 (ballMoveAndBounce canvasW b).2
        (ballMoveAndBounce canvasW b).1)).hitWallThisFrame =
      (ballMoveAndBounce canvasW b).2 := by
    rw [hbp.2.2.2, hnp.2.2.2.2, hmb.2.2.2.2]
  refine ⟨fun hw ht => ?_, fun ht => ?_, fun nx ny pen => ?_,
    fun hit nx ny pen blkColor blk => ?_⟩
  · rw [hres] at hw ⊢
    rw [(ballLoseBulldoze_preserves _ _ _).1, hB2w] at hw
    have hspec := (ballLoseBulldoze_spec timeSinceSpawn (ballMoveAndBounce canvasW b).2
      (ballLoseBoost rsqrt timeSinceSpawn (ballMoveAndBounce canvasW b).2
        (ballNudge u1 u2 (ballMoveAndBounce canvasW b).2
          (ballMoveAndBounce canvasW b).1))).1 ⟨hw, hB2bd, ht⟩
    exact ⟨hspec.1, by rw [hspec.2, hB2t]⟩
  · rw [hres]
    have hcond : ¬ ((ballMoveAndBounce canvasW b).2 = true ∧
        (ballLoseBoost rsqrt timeSinceSpawn (ballMoveAndBounce canvasW b).2
          (ballNudge u1 u2 (ballMoveAndBounce canvasW b).2
            (ballMoveAndBounce canvasW b).1)).hasBulldoze = true ∧
        timeSinceSpawn > 200) := by
      rintro ⟨-, -, h⟩
      exact ht h
    rw [(ballLoseBulldoze_spec _ _ _).2 hcond]
    exact ⟨hB2bd, hB2r⟩
  · simp only [wallCollisionStep]
    split_ifs <;> simp_all
  · simp only [ballBlockStep]
    split_ifs <;> exact ⟨rfl, rfl⟩

/-- Witness for the amended C8: the same left-edge contact as the
    counterexample but 300 ms after spawn does revoke bulldoze and restores
    the base radius. -/
theorem bulldoze_revocation_amended_witness :
    (ballUpdate (fun _ => 0) 400 600 300 (1/2) (1/2) graceBall).1.hasBulldoze = false ∧
    (ballUpdate (fun _ => 0) 400 600 300 (1/2) (1/2) graceBall).1.baseRadius =
      getRadiusByType graceBall.type := by
  have h1 : ballUpdate (fun _ => 0) 400 600 300 (1/2) (1/2) graceBall =
      ({ x := 20, y := 300 + 1/20, vx := 10, vy := 1/20, color := GameColor.red,
         type := BallType.normal, baseRadius := 10, normalSpeed := 2,
         boosted := false, hasBulldoze := false, hasExplosion := false,
         points := 0, hitWallThisFrame := true }, true) := by
    unfold ballUpdate ballMoveAndBounce ballNudge ballLoseBoost ballLoseBulldoze
      graceBall GRAVITY getRadiusByType BALL_RADIUS_NORMAL
    norm_num
  exact (bulldoze_revocation_amended (fun _ => 0) 400 600 300 (1/2) (1/2) graceBall
    rfl).1 (by rw [h1]) (by norm_num)

/-- The x coordinate of the circle center clamped to the rectangle bounds
    (src/main.js line 1912: Math.max(block.x, Math.min(ball.x, block.x +
    block.width))). -/
noncomputable def rectNearestX (ballX rx rw : ℝ) : ℝ := max rx (min ballX (rx + rw))

/-- The y coordinate of the circle center clamped to the rectangle bounds
    (src/main.js line 1913). -/
noncomputable def rectNearestY (ballY ry rh : ℝ) : ℝ := max ry (min ballY (ry + rh))

/-- The distance from the nearest point to the circle center
    (src/main.js lines 1914-1916). -/
noncomputable def rectNearestDist (ballX ballY rx ry rw rh : ℝ) : ℝ :=
  Real.sqrt ((ballX - rectNearestX ballX rx rw) * (ballX - rectNearestX ballX rx rw) +
    (ballY - rectNearestY ballY ry rh) * (ballY - rectNearestY ballY ry rh))

/-- The result of circleRectCollision: either no hit, or a hit carrying the
    collision normal and the penetration depth. -/
inductive CollisionResult
  | miss
  | contact (nx ny penetration : ℝ)

/-- circleRectCollision (src/main.js lines 1911-1927) over the reals: hit
    when the distance from the clamped nearest point to the circle center is
    strictly below the radius, with normal dx/distance, dy/distance
    (defaulting to (0, 1) when the distance is 0) and penetration
    radius - distance. -/
noncomputable def circleRectCollision (ballX ballY radius rx ry rw rh : ℝ) :
    CollisionResult :=
  if rectNearestDist ballX ballY rx ry rw rh < radius then
    CollisionResult.contact
      (if rectNearestDist ballX ballY rx ry rw rh > 0 then
        (ballX - rectNearestX ballX rx rw) / rectNearestDist ballX ballY rx ry rw rh
       else 0)
      (if rectNearestDist ballX ballY rx ry rw rh > 0 then
        (ballY - rectNearestY ballY ry rh) / rectNearestDist ballX ballY rx ry rw rh
       else 1)
      (radius - rectNearestDist ballX ballY rx ry rw rh)
  else CollisionResult.miss

/-- Claim C9: circleRectCollision reports a hit exactly when the distance
    from the clamped nearest point to the circle center is strictly below
    the radius; on a hit the penetration is radius minus that distance (and
    positive), the normal is (0, 1) when the distance is exactly 0, and
    otherwise the normal is the unit vector from the nearest point toward the
    circle center. -/
theorem circleRectCollision_spec (ballX ballY radius rx ry rw rh : ℝ) :
    (circleRectCollision ballX ballY radius rx ry rw rh ≠ CollisionResult.miss ↔
      rectNearestDist ballX ballY rx ry rw rh < radius) ∧
    (∀ nx ny pen,
      circleRectCollision ballX ballY radius rx ry rw rh =
        CollisionResult.contact nx ny pen →
      pen = radius - rectNearestDist ballX ballY rx ry rw rh ∧
      0 < pen ∧
      (rectNearestDist ballX ballY rx ry rw rh = 0 → nx = 0 ∧ ny = 1) ∧
      (0 < rectNearestDist ballX ballY rx ry rw rh →
        nx * nx + ny * ny = 1 ∧
        rectNearestDist ballX ballY rx ry rw rh * nx =
          ballX - rectNearestX ballX rx rw ∧
        rectNearestDist ballX ballY rx ry rw rh * ny =
          ballY - rectNearestY ballY ry rh)) := by
  constructor
  · unfold circleRectCollision
    split_ifs with h h2 <;> simp [h]
  · intro nx ny pen
    unfold circleRectCollision
    split_ifs with h hpos
    · intro heq
      obtain ⟨hnx, hny, hpen⟩ := CollisionResult.contact.inj heq
      have hne : rectNearestDist ballX ballY rx ry rw rh ≠ 0 := ne_of_gt hpos
      have hdd : rectNearestDist ballX ballY rx ry rw rh *
          rectNearestDist ballX ballY rx ry rw rh =
          (ballX - rectNearestX ballX rx rw) * (ballX - rectNearestX ballX rx rw) +
          (ballY - rectNearestY ballY ry rh) * (ballY - rectNearestY ballY ry rh) := by
        unfold rectNearestDist
        exact Real.mul_self_sqrt
          (add_nonneg (mul_self_nonneg _) (mul_self_nonneg _))
      refine ⟨hpen.symm, by rw [← hpen]; linarith, fun h0 => absurd h0 hne, fun _ => ?_⟩
      refine ⟨?_, ?_, ?_⟩
      · rw [← hnx, ← hny]
        field_simp
        linarith [hdd]
      · rw [← hnx]
        field_simp
      · rw [← hny]
        field_simp
    · intro heq
      obtain ⟨hnx, hny, hpen⟩ := CollisionResult.contact.inj heq
      have h0 : rectNearestDist ballX ballY rx ry rw rh = 0 := by
        have := Real.sqrt_nonneg
          ((ballX - rectNearestX ballX rx rw) * (ballX - rectNearestX ballX rx rw) +
           (ballY - rectNearestY ballY ry rh) * (ballY - rectNearestY ballY ry rh))
        unfold rectNearestDist at *
        linarith [not_lt.mp hpos]
      refine ⟨hpen.symm, by rw [← hpen]; linarith, fun _ => ⟨hnx.symm, hny.symm⟩,
        fun hgt => absurd h0 (ne_of_gt hgt)⟩
    · intro heq
      exact absurd heq (by simp)

/-- Witness for C9: the circle at (7, 10) with radius 6 against the axis
    rectangle [0, 4] x [0, 6]; the nearest point is (4, 6), the distance 5,
    and the reported contact is the unit normal (3/5, 4/5) with
    penetration 1. -/
theorem circleRectCollision_spec_witness :
    (1:ℝ) = 6 - rectNearestDist 7 10 0 0 4 6 ∧
    (0:ℝ) < 1 ∧
    (rectNearestDist 7 10 0 0 4 6 = 0 → (3/5 : ℝ) = 0 ∧ (4/5 : ℝ) = 1) ∧
    (0 < rectNearestDist 7 10 0 0 4 6 →
      (3/5 : ℝ) * (3/5) + (4/5) * (4/5) = 1 ∧
      rectNearestDist 7 10 0 0 4 6 * (3/5) = 7 - rectNearestX 7 0 4 ∧
      rectNearestDist 7 10 0 0 4 6 * (4/5) = 10 - rectNearestY 10 0 6) := by
  have hd : rectNearestDist 7 10 0 0 4 6 = 5 := by
    unfold rectNearestDist rectNearestX rectNearestY
    rw [show max (0:ℝ) (min 7 (0 + 4)) = 4 by norm_num,
      show max (0:ℝ) (min 10 (0 + 6)) = 6 by norm_num,
      show ((7:ℝ) - 4) * (7 - 4) + (10 - 6) * (10 - 6) = 5 ^ 2 by norm_num]
    exact Real.sqrt_sq (by norm_num)
  have heqd : circleRectCollision 7 10 6 0 0 4 6 =
      CollisionResult.contact (3/5) (4/5) 1 := by
    unfold circleRectCollision
    rw [hd]
    rw [if_pos (by norm_num : (5:ℝ) < 6), if_pos (by norm_num : (5:ℝ) > 0)]
    unfold rectNearestX rectNearestY
    norm_num
  exact (circleRectCollision_spec 7 10 6 0 0 4 6).2 (3/5) (4/5) 1 heqd

/-- CONFIG.SLOT_MATCH_BIAS (src/main.js line 585). -/
def SLOT_MATCH_BIAS : ℚ := 9/20

/-- The Math.random() draws consumed by one biased reel resolution
    (SlotMachine.getBiasedReelValue): u1 decides the bias branch, u2 picks
    among already-stopped reels, u3 picks uniformly among the colors. -/
structure ReelDraw where
  u1 : ℚ
  u2 : ℚ
  u3 : ℚ

/-- SlotMachine.colors (src/main.js line 1454). -/
def slotColors : List ReelColor := [ReelColor.red, ReelColor.yellow, ReelColor.blue]

/-- SlotMachine.getBiasedReelValue (src/main.js lines 1545-1551): with
    probability SLOT_MATCH_BIAS copy a uniformly chosen already-stopped reel,
    otherwise draw uniformly from the three colors. -/
def getBiasedReelValue (reels : List ReelColor) (stoppedCount : ℕ)
    (d : ReelDraw) : ReelColor :=
  let prev := reels.take stoppedCount
  if d.u1 < SLOT_MATCH_BIAS ∧ 0 < prev.length then
    prev.getD (⌊d.u2 * prev.length⌋).toNat ReelColor.red
  else slotColors.getD (⌊d.u3 * 3⌋).toNat ReelColor.red

/-- The slot-machine state fields driven by reel stopping. -/
structure SlotSt where
  reels : List ReelColor
  stoppedCount : ℕ
  phase : SlotPhase
  deriving DecidableEq, Repr

/-- SlotMachine.stopReel (src/main.js lines 1507-1543), without timers and
    display: lock the next reel (reel 0 keeps its currently displayed value,
    later reels take the biased draw), advance the stopped count, and move
    the phase to stopping after the first lock and to result after the
    third. -/
def stopReel (s : SlotSt) (d : ReelDraw) : SlotSt :=
  if s.phase = SlotPhase.spinning ∨ s.phase = SlotPhase.stopping then
    { reels := s.reels.set s.stoppedCount
        (if s.stoppedCount = 0 then s.reels.getD 0 ReelColor.red
         else getBiasedReelValue s.reels s.stoppedCount d),
      stoppedCount := s.stoppedCount + 1,
      phase := if s.stoppedCount + 1 = 1 then SlotPhase.stopping
               else if s.stoppedCount + 1 = 3 then SlotPhase.result else s.phase }
  else s

/-- The while loop of SlotMachine.skipToResult (src/main.js lines 1608-1616)
    with explicit fuel: resolve the remaining reels in order, reel 0 keeping
    its current value and later reels taking the same biased draw. -/
def skipReels : ℕ → SlotSt → (ℕ → ReelDraw) → SlotSt
  | 0, s, _ => s
  | n + 1, s, ds =>
    if s.stoppedCount < 3 then
      skipReels n
        { reels := s.reels.set s.stoppedCount
            (if s.stoppedCount = 0 then s.reels.getD 0 ReelColor.red
             else getBiasedReelValue s.reels s.stoppedCount (ds 0)),
          stoppedCount := s.stoppedCount + 1,
          phase := s.phase }
        (fun i => ds (i + 1))
    else s

/-- SlotMachine.skipToResult (src/main.js lines 1596-1621): a no-op unless
    the machine is spinning or stopping; otherwise resolve all remaining
    reels with the biased draw and move straight to the result phase. -/
def skipToResult (s : SlotSt) (ds : ℕ → ReelDraw) : SlotSt :=
  if s.phase = SlotPhase.spinning ∨ s.phase = SlotPhase.stopping then
    { skipReels 3 s ds with phase := SlotPhase.result }
  else s

/-- stopReel applied repeatedly with successive draws (the normal, delayed
    stopping path). -/
def iterateStop : ℕ → SlotSt → (ℕ → ReelDraw) → SlotSt
  | 0, s, _ => s
  | n + 1, s, ds => iterateStop n (stopReel s (ds 0)) (fun i => ds (i + 1))

/-- SkillWheel.stopSpin's target draw (src/main.js lines 1813-1815): the
    current rotation plus 0.3 + u * 0.5 extra turns. -/
noncomputable def stopSpinTarget (rotation u : ℝ) : ℝ :=
  rotation + (3/10 + u * (1/2)) * (Real.pi * 2)

/-- SkillWheel.skipToResult's target draw when the wheel has not yet begun
    stopping (src/main.js line 1876): the current rotation plus u extra
    turns. -/
noncomputable def skipSpinTarget (rotation u : ℝ) : ℝ :=
  rotation + u * (Real.pi * 2)

/-- SkillWheel.skipToResult's final rotation (src/main.js lines 1870-1883):
    when already stopping it jumps to the previously drawn target, otherwise
    it draws a fresh target. -/
noncomputable def skipWheelRotation (stopping : Bool)
    (rotation targetRotation u : ℝ) : ℝ :=
  if stopping = true then targetRotation else skipSpinTarget rotation u

/-- Counterexample to claim C7: over the uniform draw u in [0, 1), the set of
    final wheel rotations produced by a skip issued while still spinning
    (rotation + u turns, here from rotation 0) differs from the set produced
    by normal stopping (rotation + 0.3 + 0.5 u turns): rotation 0 itself is
    reachable by the skip draw at u = 0 but unreachable by the normal draw.
    So the skip does not preserve the wheel's final-rotation distribution. -/
theorem skipToResult_cx :
    Set.image (fun u => skipSpinTarget 0 u) (Set.Ico (0:ℝ) 1) ≠
      Set.image (fun u => stopSpinTarget 0 u) (Set.Ico (0:ℝ) 1) := by
  intro heq
  have hmem : (0:ℝ) ∈ Set.image (fun u => skipSpinTarget 0 u) (Set.Ico (0:ℝ) 1) := by
    refine ⟨0, ⟨le_refl 0, zero_lt_one⟩, ?_⟩
    simp [skipSpinTarget]
  rw [heq] at hmem
  obtain ⟨u, ⟨hu0, -⟩, hval⟩ := hmem
  have hpi := Real.pi_pos
  unfold stopSpinTarget at hval
  nlinarith [hval, hu0, hpi]

/-- Claim C7 (amended): a skip on an active reel randomizer resolves the
    remaining reels with exactly the same biased draw function as the normal
    sequential stopping path — from the same state and random stream,
    skipToResult equals iterating stopReel until all three reels are locked;
    and a wheel skip issued while the wheel is already stopping jumps to the
    previously drawn target, the same rotation normal stopping converges to.
    A wheel skip issued while still spinning, however, draws its extra
    rotation uniformly from [0, 1) turns instead of stopSpin's
    [0.3, 0.8) turns. -/
theorem skipToResult_amended (s : SlotSt) (ds : ℕ → ReelDraw)
    (hphase : s.phase = SlotPhase.spinning ∨ s.phase = SlotPhase.stopping)
    (hcount : s.stoppedCount ≤ 2) :
    skipToResult s ds = iterateStop (3 - s.stoppedCount) s ds ∧
    (∀ rotation target u, skipWheelRotation true rotation target u = target) := by
  constructor
  · obtain ⟨reels, count, ph⟩ := s
    dsimp only at hphase hcount
    rcases hphase with hp | hp <;> subst hp <;>
      interval_cases count <;>
        simp [skipToResult, skipReels, iterateStop, stopReel]
  · intro rotation target u
    simp [skipWheelRotation]

/-- Witness for the amended C7 at a concrete mid-spin state and draw
    stream. -/
theorem skipToResult_amended_witness :
    skipToResult
        { reels := [ReelColor.red, ReelColor.yellow, ReelColor.blue],
          stoppedCount := 0, phase := SlotPhase.spinning }
        (fun _ => { u1 := 1, u2 := 0, u3 := 0 }) =
      iterateStop 3
        { reels := [ReelColor.red, ReelColor.yellow, ReelColor.blue],
          stoppedCount := 0, phase := SlotPhase.spinning }
        (fun _ => { u1 := 1, u2 := 0, u3 := 0 }) ∧
    (∀ rotation target u, skipWheelRotation true rotation target u = target) :=
  skipToResult_amended
    { reels := [ReelColor.red, ReelColor.yellow, ReelColor.blue],
      stoppedCount := 0, phase := SlotPhase.spinning }
    (fun _ => { u1 := 1, u2 := 0, u3 := 0 })
    (Or.inl rfl) (by norm_num)

end Pinbounce
